import Mathlib

/-!
Verification of the NuttX architecture-port core (rgmp hosted port and the
intel64 tickless timer).  The C sources are shallowly embedded: pure helpers
become Lean functions on `Nat` with explicit `% 2^32` / `% 2^64` truncation
where the C performs fixed-width arithmetic, and the stateful entry points
become functions from an explicit state (plus the sampled results of the
external scheduler interfaces) to a new state together with a trace of the
externally visible calls they perform, in program order.
-/

namespace Nx

/-- 2^32, the modulus of the 32-bit `size_t` / pointer arithmetic of the
rgmp port (the port casts pointers through `unsigned int` and `uint32_t`). -/
def U32 : Nat := 4294967296

/-- 2^64, the modulus of the `uint64_t` arithmetic of the tickless timer. -/
def U64 : Nat := 18446744073709551616

/-- NS_PER_SEC / NSEC_PER_SEC (1000000000UL). -/
def NS_PER_SEC : Nat := 1000000000

/-- `struct timespec` restricted to the non-negative values the timer code
manipulates: `tv_sec` seconds plus `tv_nsec` nanoseconds. -/
structure timespec where
  tv_sec : Nat
  tv_nsec : Nat
deriving DecidableEq, Repr

/-- Total nanosecond value denoted by a `timespec`. -/
def totalNs (ts : timespec) : Nat :=
  ts.tv_sec * NS_PER_SEC + ts.tv_nsec

/-- `ROUND_INT_DIV(s, d) = (s + (d >> 1)) / d`: half-up rounding division
(from intel64_tickless.c). -/
def ROUND_INT_DIV (s d : Nat) : Nat := (s + d / 2) / d

/-- 64-bit wrapping subtraction, the semantics of `a - b` on `uint64_t`. -/
def usub64 (a b : Nat) : Nat := (a % U64 + (U64 - b % U64)) % U64

/-- `up_ts2tick`: converts a timespec to TSC ticks,
`ROUND_INT_DIV(ts->tv_nsec * tsc_freq, NS_PER_SEC) + ts->tv_sec * tsc_freq`,
every operation performed in `uint64_t`. -/
def up_ts2tick (tsc_freq : Nat) (ts : timespec) : Nat :=
  ((ts.tv_nsec * tsc_freq % U64 + NS_PER_SEC / 2) % U64 / NS_PER_SEC
    + ts.tv_sec * tsc_freq % U64) % U64

/-- `up_tick2ts`: converts TSC ticks back to a timespec,
`tv_sec = tick / tsc_freq; tv_nsec = ROUND_INT_DIV((tick % tsc_freq) * NSEC_PER_SEC, tsc_freq)`,
in `uint64_t` arithmetic. -/
def up_tick2ts (tsc_freq : Nat) (tick : Nat) : timespec :=
  { tv_sec := tick / tsc_freq
    tv_nsec := (tick % tsc_freq * NS_PER_SEC % U64 + tsc_freq / 2) % U64 / tsc_freq }

/-- Task control block, restricted to the fields nuttx.c reads and writes
directly.  TCBs are identified by an arena index `id`; C pointer equality on
TCBs is equality of ids (the spec's arena-and-index model). -/
structure Tcb where
  id : Nat
  task_state : Nat
  sched_priority : Nat
deriving DecidableEq, Repr

/-- Compile-time configuration of the port: the two contiguous state ranges
from the scheduler headers, the scheduler priority bounds (the rgmp code
compiles the priority checks in only when the bound is strictly inside the
uint8 range), and CONFIG_ARCH_ADDRENV. -/
structure Config where
  firstRTR : Nat
  lastRTR : Nat
  firstBlocked : Nat
  lastBlocked : Nat
  prioMin : Nat
  prioMax : Nat
  addrenv : Bool
deriving DecidableEq, Repr

/-- Results of the external scheduler interfaces, sampled in program order
during one entry into the C4 layer: the booleans returned by
sched_removereadytorun and sched_addreadytorun, the IRQ nesting predicate,
whether g_pendingtasks.head is non-null, and the TCB this_task() yields. -/
structure Env where
  removeHead : Bool
  addHead : Bool
  inInterrupt : Bool
  pendingHead : Bool
  nextTcb : Tcb
deriving DecidableEq, Repr

/-- Externally visible calls made by the scheduler-interaction layer, in
program order. -/
inductive SchedEvent where
  | warn
  | removeReadyToRun (id : Nat)
  | addBlocked (id : Nat) (st : Nat)
  | removeBlocked (id : Nat)
  | addReadyToRun (id : Nat)
  | mergePending
  | suspendScheduler (id : Nat)
  | resumeScheduler (id : Nat)
  | thisTask
  | addrenvSwitch (id : Nat)
  | ctxSwitch (fromId : Option Nat) (toId : Nat)
  | panicked
deriving DecidableEq, Repr

/-- `up_switchcontext(ctcb, ntcb)`: returns the new value of `current_task`
together with the trace.  The identity check (`ctcb == ntcb`, pointer
equality, hence id equality; NULL compares unequal to any TCB) comes first;
then the interrupt-context check panics; otherwise `current_task = ntcb` and
rgmp_context_switch runs. -/
def up_switchcontext (cur : Tcb) (ctcb : Option Tcb) (ntcb : Tcb) (inIrq : Bool) :
    Tcb × List SchedEvent :=
  if ctcb.map Tcb.id = some ntcb.id then
    (cur, [])
  else if inIrq then
    (cur, [SchedEvent.panicked])
  else
    (ntcb, [SchedEvent.ctxSwitch (ctcb.map Tcb.id) ntcb.id])

/-- `up_block_task(tcb, task_state)`: returns the new `current_task`, the
(unchanged) argument TCB and the trace.  The precondition check warns and
returns; otherwise the removal result decides the switch; the code calls
sched_suspend_scheduler(rtcb) before the interrupt assertion, then drains the
pending list with a warning if non-empty, reads this_task(), optionally
switches the address environment, resumes the scheduler and switches. -/
def up_block_task (cfg : Config) (env : Env) (cur tcb : Tcb) (task_state : Nat) :
    Tcb × Tcb × List SchedEvent :=
  if tcb.task_state < cfg.firstRTR ∨ cfg.lastRTR < tcb.task_state then
    (cur, tcb, [SchedEvent.warn])
  else
    let switch_needed := env.removeHead
    let e0 := [SchedEvent.removeReadyToRun tcb.id, SchedEvent.addBlocked tcb.id task_state]
    if switch_needed = true then
      if env.inInterrupt = true then
        (cur, tcb, e0 ++ [SchedEvent.suspendScheduler cur.id, SchedEvent.panicked])
      else
        let drain := if env.pendingHead = true then [SchedEvent.warn, SchedEvent.mergePending] else []
        let nexttcb := env.nextTcb
        let ae := if cfg.addrenv = true then [SchedEvent.addrenvSwitch nexttcb.id] else []
        let sw := up_switchcontext cur (some cur) nexttcb env.inInterrupt
        (sw.1, tcb,
          e0 ++ [SchedEvent.suspendScheduler cur.id] ++ drain ++ [SchedEvent.thisTask]
             ++ ae ++ [SchedEvent.resumeScheduler nexttcb.id] ++ sw.2)
    else (cur, tcb, e0)

/-- `up_unblock_task(tcb)`: the precondition check warns and returns;
otherwise the TCB is removed from the blocked list and added to ready-to-run,
and when that changed the head and the CPU is not in interrupt context the
suspend / this_task / resume / switch sequence runs (the group_addrenv call
on this path is swallowed by an unclosed block comment in the source, so no
address-environment event is emitted here). -/
def up_unblock_task (cfg : Config) (env : Env) (cur tcb : Tcb) :
    Tcb × Tcb × List SchedEvent :=
  if tcb.task_state < cfg.firstBlocked ∨ cfg.lastBlocked < tcb.task_state then
    (cur, tcb, [SchedEvent.warn])
  else
    let e0 := [SchedEvent.removeBlocked tcb.id, SchedEvent.addReadyToRun tcb.id]
    if env.addHead = true ∧ env.inInterrupt = false then
      let nexttcb := env.nextTcb
      let sw := up_switchcontext cur (some cur) nexttcb env.inInterrupt
      (sw.1, tcb,
        e0 ++ [SchedEvent.suspendScheduler cur.id, SchedEvent.thisTask,
               SchedEvent.resumeScheduler nexttcb.id] ++ sw.2)
    else (cur, tcb, e0)

/-- `up_reprioritize_rtr(tcb, priority)`: the sanity check covers the state
range and, under the compile-time guards, the priority bounds; then the TCB
is removed, the priority stored (as uint8), the TCB re-added, and the switch
branch (taken iff the exclusive-or of the two head changes is set and the
CPU is not in interrupt context) drains pending, suspends, reads this_task(),
optionally switches the address environment, resumes and switches. -/
def up_reprioritize_rtr (cfg : Config) (env : Env) (cur tcb : Tcb) (priority : Nat) :
    Tcb × Tcb × List SchedEvent :=
  if tcb.task_state < cfg.firstRTR ∨ cfg.lastRTR < tcb.task_state
      ∨ (0 < cfg.prioMin ∧ priority < cfg.prioMin)
      ∨ (cfg.prioMax < 255 ∧ cfg.prioMax < priority) then
    (cur, tcb, [SchedEvent.warn])
  else
    let tcb2 := { tcb with sched_priority := priority % 256 }
    let switch_needed := Bool.xor env.removeHead env.addHead
    let e0 := [SchedEvent.removeReadyToRun tcb.id, SchedEvent.addReadyToRun tcb.id]
    if switch_needed = true ∧ env.inInterrupt = false then
      let drain := if env.pendingHead = true then [SchedEvent.warn, SchedEvent.mergePending] else []
      let nexttcb := env.nextTcb
      let ae := if cfg.addrenv = true then [SchedEvent.addrenvSwitch nexttcb.id] else []
      let sw := up_switchcontext cur (some cur) nexttcb env.inInterrupt
      (sw.1, tcb2,
        e0 ++ drain ++ [SchedEvent.suspendScheduler cur.id, SchedEvent.thisTask]
           ++ ae ++ [SchedEvent.resumeScheduler nexttcb.id] ++ sw.2)
    else (cur, tcb2, e0)

/-- Modelled from the spec: the order of steps section 4.4 prescribes for the
switch branch of `block` — assertion first (panic in interrupt context), then
the pending drain, then this_task(), then the address-environment handoff,
then suspend of the old task, resume of the new, and the context switch.
Used only to compare the specified order against the code. -/
def spec_block_switch_trace (cfg : Config) (env : Env) (cur tcb : Tcb) (task_state : Nat) :
    List SchedEvent :=
  [SchedEvent.removeReadyToRun tcb.id, SchedEvent.addBlocked tcb.id task_state] ++
    (if env.inInterrupt = true then [SchedEvent.panicked]
     else (if env.pendingHead = true then [SchedEvent.warn, SchedEvent.mergePending] else [])
       ++ [SchedEvent.thisTask]
       ++ (if cfg.addrenv = true then [SchedEvent.addrenvSwitch env.nextTcb.id] else [])
       ++ [SchedEvent.suspendScheduler cur.id, SchedEvent.resumeScheduler env.nextTcb.id,
           SchedEvent.ctxSwitch (some cur.id) env.nextTcb.id])

/-- Stack-related fields of a TCB: `stack_alloc_ptr` (None is the C NULL),
`adj_stack_size` and `adj_stack_ptr` (addresses are 32-bit numbers, 0 for
the NULL reset in up_release_stack). -/
structure StackTcb where
  stack_alloc_ptr : Option Nat
  adj_stack_size : Nat
  adj_stack_ptr : Nat
deriving DecidableEq, Repr

/-- Allocator calls made by the stack manager, with the byte count or the
freed address. -/
inductive StackEvent where
  | kmalloc (size : Nat)
  | kumalloc (size : Nat)
  | kfree (p : Nat)
  | kufree (p : Nat)
  | initialState
deriving DecidableEq, Repr

/-- TCB_FLAG_TTYPE_KERNEL, the task-type value selecting the kernel heap. -/
def TCB_FLAG_TTYPE_KERNEL : Nat := 2

/-- `(x + 3) & ~3` on 32-bit size_t: round up to a multiple of 4 (clearing
the low two bits is subtracting the remainder mod 4). -/
def align4up (x : Nat) : Nat := (x + 3) % U32 - (x + 3) % U32 % 4

/-- 32-bit wrapping subtraction, the semantics of pointer subtraction on the
32-bit port. -/
def usub32 (a b : Nat) : Nat := (a % U32 + (U32 - b % U32)) % U32

/-- `up_create_stack(tcb, stack_size, ttype)`: rounds the size up to a
multiple of 4; allocates via kmm_malloc(stack_size) when
CONFIG_BUILD_KERNEL && CONFIG_MM_KERNEL_HEAP (`kernelHeap`) and the task type
is kernel, and via kumm_malloc(adj_stack_size) otherwise; `allocResult` is
the address the allocator returned (none for NULL).  On success the TCB
fields are set, with `adj_stack_ptr` the address of the last word of the
allocation masked down to 8-byte alignment; on failure ERROR (-1) is
returned and the TCB is untouched. -/
def up_create_stack (kernelHeap : Bool) (tcb : StackTcb) (stack_size : Nat)
    (ttype : Nat) (allocResult : Option Nat) : Int × StackTcb × List StackEvent :=
  let adj_stack_size := align4up stack_size
  let adj_stack_words := adj_stack_size / 4
  let ev := if kernelHeap = true ∧ ttype = TCB_FLAG_TTYPE_KERNEL then
      [StackEvent.kmalloc stack_size]
    else
      [StackEvent.kumalloc adj_stack_size]
  match allocResult with
  | none => (-1, tcb, ev)
  | some p =>
      let adj_stack_ptr := (p % U32 + 4 * ((adj_stack_words + (U32 - 1)) % U32)) % U32
      (0, { stack_alloc_ptr := some p
            adj_stack_size := adj_stack_size
            adj_stack_ptr := adj_stack_ptr - adj_stack_ptr % 8 }, ev)

/-- `up_use_stack(tcb, stack, stack_size)`: trims the size down to a multiple
of 4 (`stack_size & ~3`), computes the address of the last word and masks it
down to 8-byte alignment, and stores the fields.  Always returns OK. -/
def up_use_stack (tcb : StackTcb) (stack : Nat) (stack_size : Nat) : Int × StackTcb :=
  let adj_stack_size := stack_size % U32 - stack_size % U32 % 4
  let adj_stack_words := adj_stack_size / 4
  let adj_stack_ptr := (stack % U32 + 4 * ((adj_stack_words + (U32 - 1)) % U32)) % U32
  (0, { stack_alloc_ptr := some stack
        adj_stack_size := adj_stack_size
        adj_stack_ptr := adj_stack_ptr - adj_stack_ptr % 8 })

/-- `up_stack_frame(tcb, frame_size)`: rounds the frame size up to a multiple
of 4; returns NULL when no stack is allocated or `adj_stack_size <= fs`;
otherwise moves `adj_stack_ptr` down by the rounded size, shrinks
`adj_stack_size`, resets the initial state via up_initial_state, and returns
`topaddr + sizeof(uint32_t)`. -/
def up_stack_frame (tcb : StackTcb) (frame_size : Nat) :
    Option Nat × StackTcb × List StackEvent :=
  let fs := align4up frame_size
  if tcb.stack_alloc_ptr = none ∨ tcb.adj_stack_size ≤ fs then
    (none, tcb, [])
  else
    let topaddr := usub32 tcb.adj_stack_ptr fs
    (some ((topaddr + 4) % U32),
     { tcb with adj_stack_ptr := topaddr, adj_stack_size := tcb.adj_stack_size - fs },
     [StackEvent.initialState])

/-- `up_release_stack(dtcb, ttype)`: frees through the matching allocator
when a stack is allocated, then resets all three stack fields to the null
state. -/
def up_release_stack (kernelHeap : Bool) (tcb : StackTcb) (ttype : Nat) :
    StackTcb × List StackEvent :=
  let ev := match tcb.stack_alloc_ptr with
    | some p =>
        if kernelHeap = true ∧ ttype = TCB_FLAG_TTYPE_KERNEL then [StackEvent.kfree p]
        else [StackEvent.kufree p]
    | none => []
  ({ stack_alloc_ptr := none, adj_stack_size := 0, adj_stack_ptr := 0 }, ev)

/-- State for the stack-manager reachability claims: the stack fields of one
TCB together with a ghost record of the size most recently requested from
`up_create_stack` (on success) or provided to `up_use_stack`. -/
structure SState where
  tcb : StackTcb
  orig : Nat
deriving DecidableEq, Repr

/-- States of one TCB reachable from the null state by any sequence of the
four stack operations, with arbitrary arguments and allocator responses. -/
inductive StackReach : SState → Prop where
  | init : StackReach ⟨⟨none, 0, 0⟩, 0⟩
  | create (s : SState) (kh : Bool) (sz ttype : Nat) (res : Option Nat) :
      StackReach s →
      StackReach ⟨(up_create_stack kh s.tcb sz ttype res).2.1,
                  match res with | none => s.orig | some _ => sz⟩
  | use (s : SState) (stack sz : Nat) :
      StackReach s →
      StackReach ⟨(up_use_stack s.tcb stack sz).2, sz⟩
  | frame (s : SState) (fs : Nat) :
      StackReach s →
      StackReach ⟨(up_stack_frame s.tcb fs).2.1, s.orig⟩
  | release (s : SState) (kh : Bool) (ttype : Nat) :
      StackReach s →
      StackReach ⟨(up_release_stack kh s.tcb ttype).1, s.orig⟩

/-- Signal-delivery fields of a TCB: the arena id, the pending handler slot
`xcp.sigdeliver` (handlers are abstract, represented by numbers), and a count
of synthetic exception frames pushed by push_xcptcontext. -/
structure XcpTcb where
  id : Nat
  sigdeliver : Option Nat
  pushedFrames : Nat
deriving DecidableEq, Repr

/-- Observable actions of up_schedule_sigaction. -/
inductive SigEvent where
  | irqSave
  | invokeHandler (handler : Nat) (id : Nat)
  | pushXcptcontext (id : Nat)
  | irqRestore
deriving DecidableEq, Repr

/-- `up_schedule_sigaction(tcb, sigdeliver)`: refuses nesting when a handler
is already pending; otherwise, under saved-and-disabled interrupts, delivers
synchronously when the target is the current task outside interrupt context,
stores the handler when the target is the current task inside interrupt
context, and stores the handler and pushes a synthetic exception frame when
the target is another task.  `curId` is the id of `current_task`. -/
def up_schedule_sigaction (tcb : XcpTcb) (curId : Nat) (inIrq : Bool)
    (sigdeliver : Nat) : XcpTcb × List SigEvent :=
  if tcb.sigdeliver = none then
    if tcb.id = curId then
      if inIrq = false then
        (tcb, [SigEvent.irqSave, SigEvent.invokeHandler sigdeliver tcb.id, SigEvent.irqRestore])
      else
        ({ tcb with sigdeliver := some sigdeliver }, [SigEvent.irqSave, SigEvent.irqRestore])
    else
      ({ tcb with sigdeliver := some sigdeliver, pushedFrames := tcb.pushedFrames + 1 },
       [SigEvent.irqSave, SigEvent.pushXcptcontext tcb.id, SigEvent.irqRestore])
  else (tcb, [])

/-- Process-wide state of the interval tickless timer: `g_goal_time`,
`g_timer_active` (uint32, zero or one) and `g_tmr_sync_count`. -/
structure TmrState where
  goal_time : Nat
  timer_active : Nat
  sync_count : Nat
deriving DecidableEq, Repr

/-- Hardware and scheduler actions of the timer code. -/
inductive TmrEvent where
  | enterCrit
  | leaveCrit
  | maskTmr
  | unmaskTmr
  | writeDeadline (v : Nat)
  | schedTimerExpiration
deriving DecidableEq, Repr

/-- `up_tmr_sync_up`: the outermost entry enters a critical section; every
entry increments the depth. -/
def up_tmr_sync_up (s : TmrState) : TmrState × List TmrEvent :=
  let ev := if s.sync_count = 0 then [TmrEvent.enterCrit] else []
  ({ s with sync_count := s.sync_count + 1 }, ev)

/-- `up_tmr_sync_down`: the depth-one exit leaves the critical section; the
depth never underflows. -/
def up_tmr_sync_down (s : TmrState) : TmrState × List TmrEvent :=
  let ev := if s.sync_count = 1 then [TmrEvent.leaveCrit] else []
  if 0 < s.sync_count then ({ s with sync_count := s.sync_count - 1 }, ev)
  else (s, ev)

/-- `up_timer_start(ts)` (interval variant): enters the sync region, computes
the absolute deadline `up_ts2tick(ts) + rdtsc()` (uint64), marks the timer
active, programs IA32_TSC_DEADLINE, records `g_goal_time`, unmasks, leaves
the sync region and returns OK.  `now` is the sampled rdtsc() value. -/
def up_timer_start (tsc_freq : Nat) (s : TmrState) (ts : timespec) (now : Nat) :
    Int × TmrState × List TmrEvent :=
  let s1 := up_tmr_sync_up s
  let ticks := (up_ts2tick tsc_freq ts + now) % U64
  let s2 := { s1.1 with timer_active := 1, goal_time := ticks }
  let s3 := up_tmr_sync_down s2
  (0, s3.1, s1.2 ++ [TmrEvent.writeDeadline ticks, TmrEvent.unmaskTmr] ++ s3.2)

/-- `up_timer_cancel(ts)` (interval variant): enters the sync region, masks
the timer, writes the remaining time `tick2ts(g_goal_time - rdtsc())` when
the timer is active and zero otherwise into a non-NULL `ts` (`tsNonNull`),
clears the active flag, leaves the sync region and returns OK. -/
def up_timer_cancel (tsc_freq : Nat) (s : TmrState) (now : Nat) (tsNonNull : Bool) :
    Int × Option timespec × TmrState × List TmrEvent :=
  let s1 := up_tmr_sync_up s
  let out := if tsNonNull = true then
      some (if s1.1.timer_active ≠ 0 then up_tick2ts tsc_freq (usub64 s1.1.goal_time now)
            else ⟨0, 0⟩)
    else none
  let s2 := { s1.1 with timer_active := 0 }
  let s3 := up_tmr_sync_down s2
  (0, out, s3.1, s1.2 ++ [TmrEvent.maskTmr] ++ s3.2)

/-- `up_timer_expire` (the IRQ handler): clears the active flag, masks the
timer and calls sched_timer_expiration. -/
def up_timer_expire (s : TmrState) : TmrState × List TmrEvent :=
  ({ s with timer_active := 0 }, [TmrEvent.maskTmr, TmrEvent.schedTimerExpiration])

/-- C10: when source and target of up_switchcontext are the same TCB, the
call returns at once: current_task is unchanged, no context is saved or
restored, and no panic happens even from interrupt context, because the
identity check precedes the interrupt-context check. -/
theorem c10_up_switchcontext_self_noop (cur c ntcb : Tcb) (inIrq : Bool)
    (h : c.id = ntcb.id) :
    up_switchcontext cur (some c) ntcb inIrq = (cur, []) := by
  simp [up_switchcontext, h]

/-- C10 witness: a self-switch requested from interrupt context returns with
current_task untouched and an empty trace. -/
theorem c10_witness :
    up_switchcontext ⟨9, 2, 100⟩ (some ⟨5, 2, 50⟩) ⟨5, 2, 50⟩ true = (⟨9, 2, 100⟩, []) :=
  c10_up_switchcontext_self_noop ⟨9, 2, 100⟩ ⟨5, 2, 50⟩ ⟨5, 2, 50⟩ true rfl

/-- C8: a precondition violation of up_block_task, up_unblock_task or
up_reprioritize_rtr (task state outside the respective range, or a priority
outside the scheduler bounds for reprioritize — priorities are uint8 values)
produces exactly one warning and returns with current_task, the argument TCB
and every queue untouched. -/
theorem c8_precondition_violation_warn_only (cfg : Config) (env : Env) (cur tcb : Tcb)
    (task_state priority : Nat) :
    ((tcb.task_state < cfg.firstRTR ∨ cfg.lastRTR < tcb.task_state) →
        up_block_task cfg env cur tcb task_state = (cur, tcb, [SchedEvent.warn])) ∧
    ((tcb.task_state < cfg.firstBlocked ∨ cfg.lastBlocked < tcb.task_state) →
        up_unblock_task cfg env cur tcb = (cur, tcb, [SchedEvent.warn])) ∧
    (priority ≤ 255 →
      (tcb.task_state < cfg.firstRTR ∨ cfg.lastRTR < tcb.task_state ∨
        priority < cfg.prioMin ∨ cfg.prioMax < priority) →
        up_reprioritize_rtr cfg env cur tcb priority = (cur, tcb, [SchedEvent.warn])) := by
  refine ⟨fun h => ?_, fun h => ?_, fun hp h => ?_⟩
  · rw [up_block_task, if_pos h]
  · rw [up_unblock_task, if_pos h]
  · rw [up_reprioritize_rtr, if_pos (by omega)]

/-- C8 witness: with state ranges ready-to-run = 2..3 and blocked = 4..6 and
priority bounds 10..200, a TCB in state 7 is refused by block and
reprioritize, a TCB in state 2 is refused by unblock, and priority 201 is
refused by reprioritize, each leaving all state unchanged. -/
theorem c8_witness :
    up_block_task ⟨2, 3, 4, 6, 10, 200, false⟩ ⟨true, true, false, false, ⟨0, 2, 0⟩⟩
        ⟨1, 2, 5⟩ ⟨3, 7, 5⟩ 4 = (⟨1, 2, 5⟩, ⟨3, 7, 5⟩, [SchedEvent.warn]) ∧
    up_unblock_task ⟨2, 3, 4, 6, 10, 200, false⟩ ⟨true, true, false, false, ⟨0, 2, 0⟩⟩
        ⟨1, 2, 5⟩ ⟨3, 2, 5⟩ = (⟨1, 2, 5⟩, ⟨3, 2, 5⟩, [SchedEvent.warn]) ∧
    up_reprioritize_rtr ⟨2, 3, 4, 6, 10, 200, false⟩ ⟨true, true, false, false, ⟨0, 2, 0⟩⟩
        ⟨1, 2, 5⟩ ⟨3, 2, 5⟩ 201 = (⟨1, 2, 5⟩, ⟨3, 2, 5⟩, [SchedEvent.warn]) := by
  refine ⟨?_, ?_, ?_⟩
  · exact (c8_precondition_violation_warn_only _ _ _ _ 4 0).1 (by decide)
  · exact (c8_precondition_violation_warn_only _ _ _ _ 4 0).2.1 (by decide)
  · exact (c8_precondition_violation_warn_only _ _ _ _ 4 201).2.2 (by decide) (by decide)

/-- C6: up_schedule_sigaction is a no-op when a handler is already pending;
delivers synchronously (storing nothing) when the target is the current task
outside interrupt context; stores the handler when the target is the current
task inside interrupt context; and stores the handler and pushes a synthetic
exception frame when the target is another task. -/
theorem c6_up_schedule_sigaction_cases (tcb : XcpTcb) (curId : Nat) (inIrq : Bool)
    (handler : Nat) :
    (tcb.sigdeliver ≠ none →
        up_schedule_sigaction tcb curId inIrq handler = (tcb, [])) ∧
    (tcb.sigdeliver = none → tcb.id = curId → inIrq = false →
        up_schedule_sigaction tcb curId inIrq handler =
          (tcb, [SigEvent.irqSave, SigEvent.invokeHandler handler tcb.id,
                 SigEvent.irqRestore])) ∧
    (tcb.sigdeliver = none → tcb.id = curId → inIrq = true →
        up_schedule_sigaction tcb curId inIrq handler =
          ({ tcb with sigdeliver := some handler },
           [SigEvent.irqSave, SigEvent.irqRestore])) ∧
    (tcb.sigdeliver = none → tcb.id ≠ curId →
        up_schedule_sigaction tcb curId inIrq handler =
          ({ tcb with sigdeliver := some handler, pushedFrames := tcb.pushedFrames + 1 },
           [SigEvent.irqSave, SigEvent.pushXcptcontext tcb.id, SigEvent.irqRestore])) := by
  refine ⟨fun h1 => ?_, fun h1 h2 h3 => ?_, fun h1 h2 h3 => ?_, fun h1 h2 => ?_⟩
  · simp [up_schedule_sigaction, h1]
  · simp [up_schedule_sigaction, h1, h2, h3]
  · simp [up_schedule_sigaction, h1, h2, h3]
  · simp [up_schedule_sigaction, h1, h2]

/-- C6 witness: signalling a non-current task with no pending handler stores
the handler and pushes one synthetic frame; a second call is then a no-op. -/
theorem c6_witness :
    up_schedule_sigaction ⟨1, none, 0⟩ 2 false 7 =
      (⟨1, some 7, 1⟩, [SigEvent.irqSave, SigEvent.pushXcptcontext 1,
                        SigEvent.irqRestore]) ∧
    up_schedule_sigaction ⟨1, some 7, 1⟩ 2 false 9 = (⟨1, some 7, 1⟩, []) := by
  refine ⟨?_, ?_⟩
  · exact (c6_up_schedule_sigaction_cases ⟨1, none, 0⟩ 2 false 7).2.2.2 rfl (by decide)
  · exact (c6_up_schedule_sigaction_cases ⟨1, some 7, 1⟩ 2 false 9).1 (by decide)

/-- C3 counterexample: requesting a 5-byte stack for a kernel thread with a
distinct kernel heap allocates 5 bytes via kmm_malloc, not the 4-rounded 8
bytes the claim requires, and a failed allocation returns ERROR (-1), not
-ENOMEM (-12). -/
theorem c3_counterexample :
    (up_create_stack true ⟨none, 0, 0⟩ 5 TCB_FLAG_TTYPE_KERNEL none).2.2 =
      [StackEvent.kmalloc 5] ∧
    align4up 5 = 8 ∧ (5 : Nat) ≠ 8 ∧
    (up_create_stack true ⟨none, 0, 0⟩ 5 TCB_FLAG_TTYPE_KERNEL none).1 = -1 ∧
    ((-1 : Int) = -12 → False) := by decide

/-- C3 (amended): up_create_stack rounds the requested size up to a multiple
of 4 and allocates that many bytes from the user allocator — except that the
kernel-thread-with-kernel-heap path passes the unrounded requested size to
the kernel allocator; on allocation failure it returns ERROR (-1) and leaves
every TCB stack field unchanged (so a null TCB stays null); on success it
sets the fields with an 8-byte-aligned adjusted stack pointer. -/
theorem c3_up_create_stack_alloc (kh : Bool) (tcb : StackTcb) (sz ttype : Nat)
    (res : Option Nat) :
    ((up_create_stack kh tcb sz ttype res).2.2 =
        if kh = true ∧ ttype = TCB_FLAG_TTYPE_KERNEL then [StackEvent.kmalloc sz]
        else [StackEvent.kumalloc (align4up sz)]) ∧
    (sz + 3 < U32 → sz ≤ align4up sz ∧ align4up sz % 4 = 0 ∧ align4up sz ≤ sz + 3) ∧
    (res = none → (up_create_stack kh tcb sz ttype res).1 = -1 ∧
        (up_create_stack kh tcb sz ttype res).2.1 = tcb) ∧
    (∀ p, res = some p → (up_create_stack kh tcb sz ttype res).1 = 0 ∧
        (up_create_stack kh tcb sz ttype res).2.1.stack_alloc_ptr = some p ∧
        (up_create_stack kh tcb sz ttype res).2.1.adj_stack_size = align4up sz ∧
        (up_create_stack kh tcb sz ttype res).2.1.adj_stack_ptr % 8 = 0) := by
  refine ⟨?_, fun hsz => ?_, fun hres => ?_, fun p hres => ?_⟩
  · cases res <;> simp [up_create_stack]
  · unfold align4up U32 at *
    omega
  · subst hres
    simp [up_create_stack]
  · subst hres
    refine ⟨rfl, rfl, rfl, ?_⟩
    simp only [up_create_stack]
    omega

/-- C3 witness: a 5-byte user-task stack request allocates 8 bytes from the
user allocator, and on success at address 8 the fields are as computed. -/
theorem c3_witness :
    (up_create_stack false ⟨none, 0, 0⟩ 5 0 (some 8)).2.2 = [StackEvent.kumalloc 8] ∧
    (5 ≤ align4up 5 ∧ align4up 5 % 4 = 0 ∧ align4up 5 ≤ 5 + 3) ∧
    (up_create_stack false ⟨none, 0, 0⟩ 5 0 (some 8)).1 = 0 ∧
    (up_create_stack false ⟨none, 0, 0⟩ 5 0 (some 8)).2.1.adj_stack_ptr % 8 = 0 := by
  have h := c3_up_create_stack_alloc false ⟨none, 0, 0⟩ 5 0 (some 8)
  refine ⟨?_, h.2.1 (by decide), (h.2.2.2 8 rfl).1, (h.2.2.2 8 rfl).2.2.2⟩
  have h1 := h.1
  simpa using h1

/-- C4 counterexample: with an allocated stack of adj_size 12 and top 96, the
frame request adj_size - 4 = 8 succeeds but leaves adj_size = 4 (a reduction
by 8, not by the claimed 4) and moves the stack top to 88 (down by 8, not by
the claimed 4). -/
theorem c4_counterexample :
    (up_stack_frame ⟨some 64, 12, 96⟩ 8).2.1.adj_stack_size = 4 ∧ (4 : Nat) ≠ 12 - 4 ∧
    (up_stack_frame ⟨some 64, 12, 96⟩ 8).2.1.adj_stack_ptr = 88 ∧ (88 : Nat) ≠ 96 - 4 := by
  refine ⟨?_, by decide, ?_, by decide⟩ <;> decide

/-- C4 (amended): up_stack_frame returns NULL exactly when no stack is
allocated or the 4-rounded frame size is at least adj_size (so a request of
adj_size itself returns NULL); a request of adj_size - 4 on an allocated
4-aligned stack succeeds, leaves adj_size equal to exactly 4 (the whole
rounded frame is consumed), moves the stack top down by the frame size, and
returns a pointer one 32-bit word past the new stack top. -/
theorem c4_up_stack_frame_boundary (tcb : StackTcb) (fs : Nat)
    (hadj : tcb.adj_stack_size + 3 < U32) :
    ((up_stack_frame tcb fs).1 = none ↔
        tcb.stack_alloc_ptr = none ∨ tcb.adj_stack_size ≤ align4up fs) ∧
    ((up_stack_frame tcb tcb.adj_stack_size).1 = none) ∧
    (tcb.stack_alloc_ptr ≠ none → tcb.adj_stack_size % 4 = 0 → 4 ≤ tcb.adj_stack_size →
        (up_stack_frame tcb (tcb.adj_stack_size - 4)).2.1.adj_stack_size = 4 ∧
        (up_stack_frame tcb (tcb.adj_stack_size - 4)).2.1.adj_stack_ptr =
          usub32 tcb.adj_stack_ptr (tcb.adj_stack_size - 4) ∧
        (up_stack_frame tcb (tcb.adj_stack_size - 4)).1 =
          some ((usub32 tcb.adj_stack_ptr (tcb.adj_stack_size - 4) + 4) % U32)) := by
  refine ⟨?_, ?_, fun ha h4 hge => ?_⟩
  · by_cases hg : tcb.stack_alloc_ptr = none ∨ tcb.adj_stack_size ≤ align4up fs
    · simp [up_stack_frame, hg]
    · simp only [up_stack_frame, if_neg hg]
      simp [hg]
  · have hle : tcb.adj_stack_size ≤ align4up tcb.adj_stack_size := by
      unfold align4up U32 at *
      omega
    simp [up_stack_frame, hle]
  · have heq : align4up (tcb.adj_stack_size - 4) = tcb.adj_stack_size - 4 := by
      unfold align4up U32 at *
      omega
    have hg : ¬ (tcb.stack_alloc_ptr = none ∨
        tcb.adj_stack_size ≤ tcb.adj_stack_size - 4) := by
      push_neg
      exact ⟨ha, by omega⟩
    simp [up_stack_frame, heq, hg]
    omega

/-- C4 witness: for the stack with adj_size 12 and top 96, requesting 12
returns NULL, and requesting 8 succeeds with adj_size 4, top 88 = 96 - 8 and
returned pointer 92 one word above the new top. -/
theorem c4_witness :
    ((12 : Nat) + 3 < U32) ∧
    (up_stack_frame ⟨some 64, 12, 96⟩ 12).1 = none ∧
    (up_stack_frame ⟨some 64, 12, 96⟩ 8).2.1.adj_stack_size = 4 ∧
    (up_stack_frame ⟨some 64, 12, 96⟩ 8).2.1.adj_stack_ptr = usub32 96 8 ∧
    (up_stack_frame ⟨some 64, 12, 96⟩ 8).1 = some ((usub32 96 8 + 4) % U32) := by
  have h := c4_up_stack_frame_boundary ⟨some 64, 12, 96⟩ 0 (by decide)
  exact ⟨by decide, h.2.1,
    (h.2.2 (by decide) (by decide) (by decide)).1,
    (h.2.2 (by decide) (by decide) (by decide)).2.1,
    (h.2.2 (by decide) (by decide) (by decide)).2.2⟩

/-- C1: for a TCB in the ready-to-run range and a priority within the
scheduler bounds (a uint8 value), up_reprioritize_rtr first asks the
scheduler to remove the TCB, stores the new priority, re-adds the TCB, and
the context switch is performed if and only if exactly one of the removal
and the re-insertion changed the head of the ready-to-run list and the CPU
is not in interrupt context (assuming this_task() then yields a TCB distinct
from the current one, which a changed head guarantees). -/
theorem c1_up_reprioritize_rtr_switch_xor (cfg : Config) (env : Env) (cur tcb : Tcb)
    (priority : Nat)
    (hs1 : cfg.firstRTR ≤ tcb.task_state) (hs2 : tcb.task_state ≤ cfg.lastRTR)
    (hp1 : cfg.prioMin ≤ priority) (hp2 : priority ≤ cfg.prioMax) (hp3 : priority ≤ 255)
    (hnext : env.nextTcb.id ≠ cur.id) :
    (up_reprioritize_rtr cfg env cur tcb priority).2.1.sched_priority = priority ∧
    (up_reprioritize_rtr cfg env cur tcb priority).2.2.head? =
      some (SchedEvent.removeReadyToRun tcb.id) ∧
    (up_reprioritize_rtr cfg env cur tcb priority).2.2.tail.head? =
      some (SchedEvent.addReadyToRun tcb.id) ∧
    (SchedEvent.ctxSwitch (some cur.id) env.nextTcb.id ∈
        (up_reprioritize_rtr cfg env cur tcb priority).2.2 ↔
      (Bool.xor env.removeHead env.addHead = true ∧ env.inInterrupt = false)) := by
  have hguard : ¬ (tcb.task_state < cfg.firstRTR ∨ cfg.lastRTR < tcb.task_state
      ∨ (0 < cfg.prioMin ∧ priority < cfg.prioMin)
      ∨ (cfg.prioMax < 255 ∧ cfg.prioMax < priority)) := by omega
  have hcur : ¬ cur.id = env.nextTcb.id := fun h => hnext h.symm
  have hmod : priority % 256 = priority := Nat.mod_eq_of_lt (by omega)
  rcases env with ⟨rh, ah, ii, ph, nt⟩
  simp only [up_reprioritize_rtr, if_neg hguard]
  cases rh <;> cases ah <;> cases ii <;> cases ph <;>
    simp_all [up_switchcontext, Bool.xor]

/-- C1 witness: with the full uint8 priority range, a ready-to-run TCB
reprioritized while only the removal changed the head (XOR true) outside
interrupt context gets its priority stored, the remove and re-add happen in
order, and the context switch is performed. -/
theorem c1_witness :
    (up_reprioritize_rtr ⟨2, 3, 4, 6, 0, 255, false⟩ ⟨true, false, false, false, ⟨1, 3, 100⟩⟩
        ⟨2, 3, 100⟩ ⟨2, 3, 100⟩ 50).2.1.sched_priority = 50 ∧
    (up_reprioritize_rtr ⟨2, 3, 4, 6, 0, 255, false⟩ ⟨true, false, false, false, ⟨1, 3, 100⟩⟩
        ⟨2, 3, 100⟩ ⟨2, 3, 100⟩ 50).2.2.head? = some (SchedEvent.removeReadyToRun 2) ∧
    (up_reprioritize_rtr ⟨2, 3, 4, 6, 0, 255, false⟩ ⟨true, false, false, false, ⟨1, 3, 100⟩⟩
        ⟨2, 3, 100⟩ ⟨2, 3, 100⟩ 50).2.2.tail.head? = some (SchedEvent.addReadyToRun 2) ∧
    (SchedEvent.ctxSwitch (some 2) 1 ∈
        (up_reprioritize_rtr ⟨2, 3, 4, 6, 0, 255, false⟩ ⟨true, false, false, false, ⟨1, 3, 100⟩⟩
          ⟨2, 3, 100⟩ ⟨2, 3, 100⟩ 50).2.2 ↔
      (Bool.xor true false = true ∧ false = false)) :=
  c1_up_reprioritize_rtr_switch_xor ⟨2, 3, 4, 6, 0, 255, false⟩
    ⟨true, false, false, false, ⟨1, 3, 100⟩⟩ ⟨2, 3, 100⟩ ⟨2, 3, 100⟩ 50
    (by decide) (by decide) (by decide) (by decide) (by decide) (by decide)

/-- C9 counterexample: blocking a ready-to-run TCB from interrupt context
with the removal having changed the head: the code calls
sched_suspend_scheduler on the old task before the not-in-interrupt
assertion panics, while the specified order has the assertion first — the
two traces differ. -/
theorem c9_counterexample :
    (up_block_task ⟨2, 3, 4, 6, 0, 255, true⟩ ⟨true, false, true, false, ⟨2, 2, 100⟩⟩
        ⟨1, 3, 100⟩ ⟨1, 3, 100⟩ 4).2.2 =
      [SchedEvent.removeReadyToRun 1, SchedEvent.addBlocked 1 4,
       SchedEvent.suspendScheduler 1, SchedEvent.panicked] ∧
    spec_block_switch_trace ⟨2, 3, 4, 6, 0, 255, true⟩ ⟨true, false, true, false, ⟨2, 2, 100⟩⟩
        ⟨1, 3, 100⟩ ⟨1, 3, 100⟩ 4 =
      [SchedEvent.removeReadyToRun 1, SchedEvent.addBlocked 1 4, SchedEvent.panicked] ∧
    (up_block_task ⟨2, 3, 4, 6, 0, 255, true⟩ ⟨true, false, true, false, ⟨2, 2, 100⟩⟩
        ⟨1, 3, 100⟩ ⟨1, 3, 100⟩ 4).2.2 ≠
      spec_block_switch_trace ⟨2, 3, 4, 6, 0, 255, true⟩ ⟨true, false, true, false, ⟨2, 2, 100⟩⟩
        ⟨1, 3, 100⟩ ⟨1, 3, 100⟩ 4 := by
  refine ⟨?_, ?_, ?_⟩ <;> decide

/-- C9 (amended): when the removal changed the head, up_block_task performs
the steps in the order the code has them: remove, add to the blocked list,
sched_suspend_scheduler on the old task first, then the not-in-interrupt
assertion (panic in interrupt context), then the pending drain with a
warning, then this_task(), then the address-environment handoff, then
sched_resume_scheduler on the new task, then the context switch. -/
theorem c9_up_block_task_switch_order (cfg : Config) (env : Env) (cur tcb : Tcb)
    (task_state : Nat)
    (hs1 : cfg.firstRTR ≤ tcb.task_state) (hs2 : tcb.task_state ≤ cfg.lastRTR)
    (hrm : env.removeHead = true) (hnext : env.nextTcb.id ≠ cur.id) :
    (up_block_task cfg env cur tcb task_state).2.2 =
      [SchedEvent.removeReadyToRun tcb.id, SchedEvent.addBlocked tcb.id task_state,
       SchedEvent.suspendScheduler cur.id] ++
      (if env.inInterrupt = true then [SchedEvent.panicked]
       else (if env.pendingHead = true then [SchedEvent.warn, SchedEvent.mergePending]
             else [])
         ++ [SchedEvent.thisTask]
         ++ (if cfg.addrenv = true then [SchedEvent.addrenvSwitch env.nextTcb.id] else [])
         ++ [SchedEvent.resumeScheduler env.nextTcb.id,
             SchedEvent.ctxSwitch (some cur.id) env.nextTcb.id]) := by
  have hguard : ¬ (tcb.task_state < cfg.firstRTR ∨ cfg.lastRTR < tcb.task_state) := by omega
  have hcur : ¬ cur.id = env.nextTcb.id := fun h => hnext h.symm
  rcases env with ⟨rh, ah, ii, ph, nt⟩
  simp only [up_block_task, if_neg hguard]
  cases ii <;> cases ph <;> simp_all [up_switchcontext]

/-- C9 witness: a concrete block with removal changing the head, outside
interrupt context, with a non-empty pending list and address environments
enabled, produces exactly the code's sequence. -/
theorem c9_witness :
    (up_block_task ⟨2, 3, 4, 6, 0, 255, true⟩ ⟨true, false, false, true, ⟨2, 2, 100⟩⟩
        ⟨1, 3, 100⟩ ⟨1, 3, 100⟩ 4).2.2 =
      [SchedEvent.removeReadyToRun 1, SchedEvent.addBlocked 1 4,
       SchedEvent.suspendScheduler 1] ++
      (if false = true then [SchedEvent.panicked]
       else (if true = true then [SchedEvent.warn, SchedEvent.mergePending] else [])
         ++ [SchedEvent.thisTask]
         ++ (if true = true then [SchedEvent.addrenvSwitch 2] else [])
         ++ [SchedEvent.resumeScheduler 2, SchedEvent.ctxSwitch (some 1) 2]) :=
  c9_up_block_task_switch_order ⟨2, 3, 4, 6, 0, 255, true⟩
    ⟨true, false, false, true, ⟨2, 2, 100⟩⟩ ⟨1, 3, 100⟩ ⟨1, 3, 100⟩ 4
    (by decide) (by decide) (by decide) (by decide)

/-- C7: up_timer_cancel (interval variant) always masks the timer, clears
the active flag and returns OK; a non-null output timespec receives
tick2ts(g_goal_time - rdtsc()) when the timer was active and zero otherwise;
consequently a cancel before any start, a cancel right after the expiration
handler ran, a cancel after start followed by expiration, and a second
consecutive cancel all report zero remaining time. -/
theorem c7_up_timer_cancel_spec (tsc_freq : Nat) (s : TmrState)
    (now now2 now3 : Nat) (b : Bool) (ts : timespec) :
    (up_timer_cancel tsc_freq s now b).1 = 0 ∧
    (up_timer_cancel tsc_freq s now b).2.2.1.timer_active = 0 ∧
    TmrEvent.maskTmr ∈ (up_timer_cancel tsc_freq s now b).2.2.2 ∧
    (up_timer_cancel tsc_freq s now b).2.1 =
      (if b = true then
         some (if s.timer_active ≠ 0 then up_tick2ts tsc_freq (usub64 s.goal_time now)
               else ⟨0, 0⟩)
       else none) ∧
    (s.timer_active = 0 → b = true →
        (up_timer_cancel tsc_freq s now b).2.1 = some ⟨0, 0⟩) ∧
    ((up_timer_cancel tsc_freq ((up_timer_expire s).1) now3 true).2.1 = some ⟨0, 0⟩) ∧
    ((up_timer_cancel tsc_freq
        ((up_timer_expire (up_timer_start tsc_freq s ts now3).2.1).1) now2 true).2.1 =
      some ⟨0, 0⟩) ∧
    ((up_timer_cancel tsc_freq (up_timer_cancel tsc_freq s now b).2.2.1 now2 true).2.1 =
      some ⟨0, 0⟩) := by
  refine ⟨rfl, ?_, ?_, ?_, fun h0 hb => ?_, ?_, ?_, ?_⟩
  · simp [up_timer_cancel, up_tmr_sync_up, up_tmr_sync_down]
  · simp [up_timer_cancel, up_tmr_sync_up, up_tmr_sync_down]
  · cases b <;> simp [up_timer_cancel, up_tmr_sync_up]
  · simp [up_timer_cancel, up_tmr_sync_up, hb, h0]
  · simp [up_timer_cancel, up_tmr_sync_up, up_timer_expire]
  · simp [up_timer_cancel, up_tmr_sync_up, up_tmr_sync_down, up_timer_expire,
      up_timer_start]
  · simp [up_timer_cancel, up_tmr_sync_up, up_tmr_sync_down]

/-- C7 witness: from an armed timer state with goal 5000 at tsc frequency
10^9, cancelling at now = 3000 returns OK, the remaining time converted by
tick2ts, and a second cancel reports zero. -/
theorem c7_witness :
    (up_timer_cancel 1000000000 ⟨5000, 1, 0⟩ 3000 true).1 = 0 ∧
    (up_timer_cancel 1000000000 ⟨5000, 1, 0⟩ 3000 true).2.2.1.timer_active = 0 ∧
    (up_timer_cancel 1000000000 ⟨5000, 1, 0⟩ 3000 true).2.1 =
      some (up_tick2ts 1000000000 (usub64 5000 3000)) ∧
    (up_timer_cancel 1000000000
        (up_timer_cancel 1000000000 ⟨5000, 1, 0⟩ 3000 true).2.2.1 7 true).2.1 =
      some ⟨0, 0⟩ := by
  have h := c7_up_timer_cancel_spec 1000000000 ⟨5000, 1, 0⟩ 3000 7 0 true ⟨0, 0⟩
  refine ⟨h.1, h.2.1, ?_, h.2.2.2.2.2.2.2⟩
  have h4 := h.2.2.2.1
  simpa using h4

/-- Helper: the state reached by a 5-byte user create whose allocation
landed at address 8: adj_stack_size 8 exceeds the requested 5. -/
theorem stackReach_after_create5 : StackReach ⟨⟨some 8, 8, 8⟩, 5⟩ := by
  have h := StackReach.create ⟨⟨none, 0, 0⟩, 0⟩ false 5 0 (some 8) StackReach.init
  have e : (up_create_stack false (⟨none, 0, 0⟩ : StackTcb) 5 0 (some 8)).2.1 =
      ⟨some 8, 8, 8⟩ := by decide
  rw [e] at h
  exact h

/-- Helper: the state after additionally carving a 4-byte frame: the
adjusted stack pointer 4 is no longer 8-byte aligned. -/
theorem stackReach_after_frame4 : StackReach ⟨⟨some 8, 4, 4⟩, 5⟩ := by
  have h := StackReach.frame ⟨⟨some 8, 8, 8⟩, 5⟩ 4 stackReach_after_create5
  have e : (up_stack_frame (⟨some 8, 8, 8⟩ : StackTcb) 4).2.1 = ⟨some 8, 4, 4⟩ := by decide
  rw [e] at h
  exact h

/-- C5 counterexample: two reachable allocated states refute the claimed
invariant — after create(5) the adjusted size 8 exceeds the requested size
5, and after a further 4-byte frame the adjusted stack pointer 4 is not
8-byte aligned. -/
theorem c5_counterexample :
    (StackReach ⟨⟨some 8, 8, 8⟩, 5⟩ ∧
      (⟨⟨some 8, 8, 8⟩, 5⟩ : SState).tcb.stack_alloc_ptr ≠ none ∧
      ¬ (⟨⟨some 8, 8, 8⟩, 5⟩ : SState).tcb.adj_stack_size ≤
          (⟨⟨some 8, 8, 8⟩, 5⟩ : SState).orig) ∧
    (StackReach ⟨⟨some 8, 4, 4⟩, 5⟩ ∧
      (⟨⟨some 8, 4, 4⟩, 5⟩ : SState).tcb.stack_alloc_ptr ≠ none ∧
      ¬ (⟨⟨some 8, 4, 4⟩, 5⟩ : SState).tcb.adj_stack_ptr % 8 = 0) :=
  ⟨⟨stackReach_after_create5, by decide, by decide⟩,
   ⟨stackReach_after_frame4, by decide, by decide⟩⟩

/-- C5 (amended): in every state reachable by any sequence of the four stack
operations, a TCB with an allocated stack has a 4-byte aligned adjusted
stack pointer (8-byte aligned immediately after create or use, but a frame
carve only preserves 4-byte alignment), a 4-byte aligned adjusted size, and
an adjusted size at most the originally requested or provided size rounded
up to a multiple of 4 (hence at most that size plus 3). -/
theorem c5_stack_invariant (s : SState) (h : StackReach s) :
    s.tcb.stack_alloc_ptr ≠ none →
    s.tcb.adj_stack_ptr % 4 = 0 ∧ s.tcb.adj_stack_size % 4 = 0 ∧
    s.tcb.adj_stack_size ≤ s.orig + 3 := by
  induction h with
  | init => exact fun ha => absurd rfl ha
  | create s kh sz ttype res _ ih =>
      cases res with
      | none =>
          intro ha
          exact ih ha
      | some p =>
          intro ha
          simp only [up_create_stack, align4up, usub32, U32]
          refine ⟨by omega, by omega, by omega⟩
  | use s stack sz _ _ =>
      intro ha
      simp only [up_use_stack, U32]
      refine ⟨by omega, by omega, by omega⟩
  | frame s fs _ ih =>
      by_cases hg : s.tcb.stack_alloc_ptr = none ∨ s.tcb.adj_stack_size ≤ align4up fs
      · simpa [up_stack_frame, hg] using ih
      · have halloc : s.tcb.stack_alloc_ptr ≠ none := fun h => hg (Or.inl h)
        have hc := ih halloc
        intro ha
        simp only [up_stack_frame, if_neg hg]
        refine ⟨?_, ?_, ?_⟩
        · have h1 := hc.1
          simp only [usub32, align4up, U32] at *
          omega
        · have h2 := hc.2.1
          simp only [align4up, U32] at *
          omega
        · have h3 := hc.2.2
          simp only [align4up, U32] at *
          omega
  | release s kh ttype _ _ =>
      intro ha
      simp [up_release_stack] at ha

/-- C5 witness: the amended invariant holds at the reachable state with
adjusted pointer 4, adjusted size 4 and original request 5. -/
theorem c5_witness :
    (⟨⟨some 8, 4, 4⟩, 5⟩ : SState).tcb.adj_stack_ptr % 4 = 0 ∧
    (⟨⟨some 8, 4, 4⟩, 5⟩ : SState).tcb.adj_stack_size % 4 = 0 ∧
    (⟨⟨some 8, 4, 4⟩, 5⟩ : SState).tcb.adj_stack_size ≤
      (⟨⟨some 8, 4, 4⟩, 5⟩ : SState).orig + 3 :=
  c5_stack_invariant ⟨⟨some 8, 4, 4⟩, 5⟩ stackReach_after_frame4 (by decide)

/-- C2 counterexample: the claim quantifies over every configured positive
tsc_freq, but at tsc_freq = 1 the timespec 0.5 s converts to 1 tick (half-up)
and back to 1.0 s, an error of half a second, far above 1 ns. -/
theorem c2_counterexample :
    0 < 1 ∧ (500000000 : Nat) < NS_PER_SEC ∧
    up_ts2tick 1 ⟨0, 500000000⟩ = 1 ∧
    up_tick2ts 1 (up_ts2tick 1 ⟨0, 500000000⟩) = ⟨1, 0⟩ ∧
    ¬ (totalNs (up_tick2ts 1 (up_ts2tick 1 ⟨0, 500000000⟩)) ≤
         totalNs ⟨0, 500000000⟩ + 1) := by
  refine ⟨by decide, by decide, by decide, by decide, by decide⟩

/-- C2 (amended): for every timespec with 0 ≤ nsec < 10^9, provided the
configured frequency satisfies tsc_freq ≥ 10^9 (true of any real TSC) and
the products stay inside uint64, converting to ticks with up_ts2tick and
back with up_tick2ts — both rounding half-up — yields a timespec whose total
nanosecond value differs from the original by at most 1 (the carry may land
in the seconds field). -/
theorem c2_ts_tick_roundtrip (tsc_freq : Nat) (ts : timespec)
    (h1 : NS_PER_SEC ≤ tsc_freq)
    (h2 : (ts.tv_sec + NS_PER_SEC) * tsc_freq < U64)
    (h3 : ts.tv_nsec < NS_PER_SEC) :
    totalNs ts ≤ totalNs (up_tick2ts tsc_freq (up_ts2tick tsc_freq ts)) ∧
    totalNs (up_tick2ts tsc_freq (up_ts2tick tsc_freq ts)) ≤ totalNs ts + 1 := by
  obtain ⟨sec, n⟩ := ts
  simp only [NS_PER_SEC, U64] at h1 h2 h3
  have hf0 : 0 < tsc_freq := by omega
  have h2' : sec * tsc_freq + 1000000000 * tsc_freq < 18446744073709551616 := by
    have e : (sec + 1000000000) * tsc_freq = sec * tsc_freq + 1000000000 * tsc_freq := by
      ring
    omega
  have hn1 : (n + 1) * tsc_freq ≤ 1000000000 * tsc_freq :=
    Nat.mul_le_mul_right tsc_freq (by omega)
  have hnlin : n * tsc_freq + tsc_freq = (n + 1) * tsc_freq := by ring
  have hnfU : n * tsc_freq + 1000000000 / 2 < 1000000000 * tsc_freq := by omega
  set t := (n * tsc_freq + 1000000000 / 2) / 1000000000 with ht
  have hdm := Nat.div_add_mod (n * tsc_freq + 1000000000 / 2) 1000000000
  have hrho : (n * tsc_freq + 1000000000 / 2) % 1000000000 < 1000000000 :=
    Nat.mod_lt _ (by norm_num)
  have htf : t < tsc_freq := by
    rw [ht, Nat.div_lt_iff_lt_mul (by norm_num)]
    have e : tsc_freq * 1000000000 = 1000000000 * tsc_freq := by ring
    omega
  have e1 : n * tsc_freq % 18446744073709551616 = n * tsc_freq :=
    Nat.mod_eq_of_lt (by omega)
  have e2 : (n * tsc_freq + 1000000000 / 2) % 18446744073709551616 =
      n * tsc_freq + 1000000000 / 2 := Nat.mod_eq_of_lt (by omega)
  have e3 : sec * tsc_freq % 18446744073709551616 = sec * tsc_freq :=
    Nat.mod_eq_of_lt (by omega)
  have e4 : (t + sec * tsc_freq) % 18446744073709551616 = t + sec * tsc_freq :=
    Nat.mod_eq_of_lt (by omega)
  have hts2tick : up_ts2tick tsc_freq ⟨sec, n⟩ = t + sec * tsc_freq := by
    simp only [up_ts2tick, NS_PER_SEC, U64]
    rw [e1, e2, ← ht, e3, e4]
  rw [hts2tick]
  have hTdiv : (t + sec * tsc_freq) / tsc_freq = sec := by
    rw [Nat.add_mul_div_right _ _ hf0, Nat.div_eq_of_lt htf, Nat.zero_add]
  have hTmod : (t + sec * tsc_freq) % tsc_freq = t := by
    rw [Nat.add_mul_mod_self_right, Nat.mod_eq_of_lt htf]
  have htD : t * 1000000000 ≤ n * tsc_freq + 1000000000 / 2 := by omega
  have e5 : t * 1000000000 % 18446744073709551616 = t * 1000000000 :=
    Nat.mod_eq_of_lt (by omega)
  have e6 : (t * 1000000000 + tsc_freq / 2) % 18446744073709551616 =
      t * 1000000000 + tsc_freq / 2 := Nat.mod_eq_of_lt (by omega)
  have hXeq : t * 1000000000 + tsc_freq / 2 =
      n * tsc_freq + (1000000000 / 2 + tsc_freq / 2 -
        (n * tsc_freq + 1000000000 / 2) % 1000000000) := by omega
  have hXle : 1000000000 / 2 + tsc_freq / 2 -
      (n * tsc_freq + 1000000000 / 2) % 1000000000 ≤ tsc_freq := by omega
  have hXdivle : (1000000000 / 2 + tsc_freq / 2 -
      (n * tsc_freq + 1000000000 / 2) % 1000000000) / tsc_freq ≤ 1 := by
    have hd := Nat.div_le_div_right (c := tsc_freq) hXle
    rwa [Nat.div_self hf0] at hd
  have hdiv2 : (n * tsc_freq + (1000000000 / 2 + tsc_freq / 2 -
      (n * tsc_freq + 1000000000 / 2) % 1000000000)) / tsc_freq =
      n + (1000000000 / 2 + tsc_freq / 2 -
        (n * tsc_freq + 1000000000 / 2) % 1000000000) / tsc_freq := by
    rw [Nat.add_comm (n * tsc_freq), Nat.add_mul_div_right _ _ hf0, Nat.add_comm]
  simp only [up_tick2ts, totalNs, NS_PER_SEC, U64]
  rw [hTdiv, hTmod, e5, e6, hXeq, hdiv2]
  constructor
  · exact Nat.add_le_add_left (Nat.le_add_right _ _) _
  · rw [← Nat.add_assoc]
    exact Nat.add_le_add_left hXdivle _

/-- C2 witness: at tsc_freq = 10^9 the timespec 1 s + 999999999 ns survives
the round trip with error at most 1 ns. -/
theorem c2_witness :
    totalNs ⟨1, 999999999⟩ ≤
      totalNs (up_tick2ts 1000000000 (up_ts2tick 1000000000 ⟨1, 999999999⟩)) ∧
    totalNs (up_tick2ts 1000000000 (up_ts2tick 1000000000 ⟨1, 999999999⟩)) ≤
      totalNs ⟨1, 999999999⟩ + 1 :=
  c2_ts_tick_roundtrip 1000000000 ⟨1, 999999999⟩ (by decide) (by decide) (by decide)

end Nx
